import Mathlib

/-!
Verification of the GoRTR RTR client (rtr/rtr.go) against its
natural-language specification.  The Go source is shallowly embedded:
byte strings are `List Nat` (each element one octet), machine integers
are `Nat` with explicit modular arithmetic where overflow matters,
optional pointers (`*uint16`, `*uint32`) are `Option Nat`, and a nil
pointer dereference or an out-of-range slice index is recorded as a
`panicked` outcome.  Socket reads and writes are assumed to succeed;
the dispatcher is modelled per PDU, taking the fully read 8-octet
header and the payload that the frame reader buffered.
-/

namespace GoRTR

/-- Big-endian 16-bit integer of two octets (Go binary.BigEndian.Uint16). -/
def bigEndianUint16 (b0 b1 : Nat) : Nat := b0 * 256 + b1

/-- Big-endian 32-bit integer of four octets (Go binary.BigEndian.Uint32). -/
def bigEndianUint32 (b0 b1 b2 b3 : Nat) : Nat :=
  ((b0 * 256 + b1) * 256 + b2) * 256 + b3

/-- Go binary.BigEndian.PutUint16: the two big-endian octets of n. -/
def putUint16 (n : Nat) : List Nat := [n / 256 % 256, n % 256]

/-- Go binary.BigEndian.PutUint32: the four big-endian octets of n. -/
def putUint32 (n : Nat) : List Nat :=
  [n / 16777216 % 256, n / 65536 % 256, n / 256 % 256, n % 256]

/-- PDU type constants (rtr.go lines 38-48). -/
def sERIALNOTIFY : Nat := 0

def sERIALQUERY : Nat := 1

def rESETQUERY : Nat := 2

def cACHERESPONSE : Nat := 3

def iPv4PREFIX : Nat := 4

def iPv6PREFIX : Nat := 6

def eNDOFDATA : Nat := 7

def cACHERESET : Nat := 8

def rOUTERKEY : Nat := 9

def eRRORREPORT : Nat := 10

/-- Size constants (rtr.go lines 50-53). -/
def hEADERSIZE : Nat := 8

def sERIALQUERYSIZE : Nat := 12

def rESETQUERYSIZE : Nat := 8

def mAXSIZE : Nat := 65536

/-- The Client record (rtr.go lines 64-68): the optional 16-bit session
id and optional 32-bit serial number.  The net.Conn field is not part
of the state we model. -/
structure Client where
  SessionID : Option Nat
  SerialNo : Option Nat
  deriving DecidableEq, Repr

/-- A ROA prefix (rtr.go lines 71-77); Address is the raw octet string
(4 octets for IPv4, 16 for IPv6), as sliced from the payload. -/
structure Prefix where
  Announcement : Bool
  Address : List Nat
  Length : Nat
  MaxLength : Nat
  ASn : Nat
  deriving DecidableEq, Repr

/-- An event delivered to the user callback (rtr.go lines 80-83). -/
structure Event where
  Description : String
  NewPrefix : Option Prefix
  deriving DecidableEq, Repr

/-- The errors the client sends on the comm channel, one constructor per
errors.New site, carrying the data interpolated into the Go message. -/
inductive RtrError where
  | invalidProtocol (version : Nat)
  | lengthMismatch (ptype expected got : Nat)
  | wrongSessionID (ptype got expected : Nat)
  | invalidRouterKey (version : Nat)
  | errorReportReceived (code : Nat) (text : List Nat)
  | unknownPDUType (ptype : Nat)
  deriving DecidableEq, Repr

/-- Outcome of an outbound query method (rtr.go serialQuery/resetQuery),
on a healthy socket: either the octets written, or the error value the
method returns without writing, or a nil-pointer-dereference panic. -/
inductive QueryResult where
  | sent (bytes : List Nat)
  | failed (msg : String)
  | panicked
  deriving DecidableEq, Repr

/-- The octets of a Serial Query as assembled by serialQuery
(rtr.go lines 252-257): version, type 1, PutUint16 of the session id,
PutUint32 of the size 12, PutUint32 of the serial. -/
def serialQueryBytes (protocolVersion sid serial : Nat) : List Nat :=
  [protocolVersion, sERIALQUERY] ++ putUint16 sid ++
    putUint32 sERIALQUERYSIZE ++ putUint32 serial

/-- Embeds serialQuery (rtr.go lines 248-263) on a healthy socket.  If
SerialNo is nil it returns the error before touching the socket; if
SerialNo is set but SessionID is nil, the PutUint16 argument
*client.SessionID is a nil dereference, hence panicked.  The method
never assigns to any Client field, so the state is returned unchanged. -/
def serialQuery (protocolVersion : Nat) (client : Client) :
    QueryResult × Client :=
  match client.SerialNo with
  | none => (.failed "serialQuery called but no serial number known", client)
  | some serial =>
    match client.SessionID with
    | none => (.panicked, client)
    | some sid => (.sent (serialQueryBytes protocolVersion sid serial), client)

/-- Embeds resetQuery (rtr.go lines 265-278) on a healthy socket: the
eight octets written are version, type 2, two zero octets, PutUint32 of
the size 8. -/
def resetQuery (protocolVersion : Nat) : List Nat :=
  [protocolVersion, rESETQUERY, 0, 0] ++ putUint32 rESETQUERYSIZE

/-- Header octet 0, the protocol version (rtr.go line 113). -/
def decodeVersion (b : List Nat) : Nat :=
  match b with
  | b0 :: _ => b0
  | _ => 0

/-- Header octet 1, the PDU type (rtr.go line 117). -/
def decodePduType (b : List Nat) : Nat :=
  match b with
  | _ :: b1 :: _ => b1
  | _ => 0

/-- Header octets 2-3, big-endian: the session id field (rtr.go line 143). -/
def decodeSessionField (b : List Nat) : Nat :=
  match b with
  | _ :: _ :: b2 :: b3 :: _ => bigEndianUint16 b2 b3
  | _ => 0

/-- Header octets 4-7, big-endian: the total length field (rtr.go line 118). -/
def decodeLength (b : List Nat) : Nat :=
  match b with
  | _ :: _ :: _ :: _ :: b4 :: b5 :: b6 :: b7 :: _ => bigEndianUint32 b4 b5 b6 b7
  | _ => 0

/-- Octets 8-11 of a whole PDU, big-endian: the serial number field of a
Serial Query or Serial Notify (payload octets 0-3, rtr.go line 153). -/
def decodeSerial (b : List Nat) : Nat :=
  match b with
  | _ :: _ :: _ :: _ :: _ :: _ :: _ :: _ :: b8 :: b9 :: b10 :: b11 :: _ =>
    bigEndianUint32 b8 b9 b10 b11
  | _ => 0

/-- Result of dispatching one PDU: the errors sent on the comm channel,
the events passed to the action callback, the octet strings written to
the socket, the client state after the step, and whether the Go code
panicked (nil pointer dereference or out-of-range index). -/
structure StepResult where
  errors : List RtrError
  events : List Event
  sent : List (List Nat)
  client : Client
  panicked : Bool
  deriving DecidableEq, Repr

/-- Embeds checkLength (rtr.go lines 85-91).  First component: the
errors sent on comm.  Second component: the function's return value.
In the source the assignment err := errors.New(...) inside the if-block
shadows the named return value err, which therefore stays nil on every
path; the second component is accordingly always none. -/
def checkLength (ptype length expected : Nat) : List RtrError × Option RtrError :=
  if length = expected then ([], none)
  else ([.lengthMismatch ptype expected length], none)

/-- The tail of the Serial Notify case after the session-id rule
(rtr.go lines 153-159): read the announced serial from payload octets
0-3, format the transition message — dereferencing *client.SerialNo,
which panics when SerialNo is nil — deliver the event, then issue a
Serial Query when the announced serial differs from the stored one.
(The resetQuery branch of line 155-156 is unreachable: it tests
SerialNo == nil after the dereference.)  A payload shorter than four
octets makes buffer[0:4] panic. -/
def serialNotifyTail (protocolVersion : Nat) (client : Client)
    (errs : List RtrError) (buffer : List Nat) : StepResult :=
  match buffer with
  | b0 :: b1 :: b2 :: b3 :: _ =>
    let serialNo := bigEndianUint32 b0 b1 b2 b3
    match client.SerialNo with
    | none => ⟨errs, [], [], client, true⟩
    | some cur =>
      let ev : Event := ⟨s!"Serial Notify #{cur} -> #{serialNo}", none⟩
      if serialNo ≠ cur then
        match serialQuery protocolVersion client with
        | (.sent bs, c2) => ⟨errs, [ev], [bs], c2, false⟩
        | (.failed _, c2) => ⟨errs, [ev], [], c2, false⟩
        | (.panicked, _) => ⟨errs, [ev], [], client, true⟩
      else ⟨errs, [ev], [], client, false⟩
  | _ => ⟨errs, [], [], client, true⟩

/-- The Serial Notify case (rtr.go lines 138-159): length check, then
the session-id rule of lines 144-152 (mismatch breaks out of the case;
an unset SessionID adopts the incoming value), then the tail. -/
def serialNotifyCase (protocolVersion : Nat) (client : Client)
    (sessionField length : Nat) (buffer : List Nat) : StepResult :=
  let cl := checkLength sERIALNOTIFY length 12
  if (cl.2).isSome then ⟨cl.1, [], [], client, false⟩
  else
    match client.SessionID with
    | some sid =>
      if sid ≠ sessionField then
        ⟨cl.1 ++ [.wrongSessionID sERIALNOTIFY sessionField sid], [], [], client, false⟩
      else serialNotifyTail protocolVersion client cl.1 buffer
    | none =>
      serialNotifyTail protocolVersion
        { client with SessionID := some sessionField } cl.1 buffer

/-- The Cache Response case (rtr.go lines 160-175): length check,
session-id rule, then an event naming *client.SessionID (set by now). -/
def cacheResponseCase (client : Client) (sessionField length : Nat) : StepResult :=
  let cl := checkLength cACHERESPONSE length 8
  if (cl.2).isSome then ⟨cl.1, [], [], client, false⟩
  else
    match client.SessionID with
    | some sid =>
      if sid ≠ sessionField then
        ⟨cl.1 ++ [.wrongSessionID cACHERESPONSE sessionField sid], [], [], client, false⟩
      else ⟨cl.1, [⟨s!"Cache Response, session is {sid}", none⟩], [], client, false⟩
    | none =>
      ⟨cl.1, [⟨s!"Cache Response, session is {sessionField}", none⟩], [],
        { client with SessionID := some sessionField }, false⟩

/-- The IPv4 Prefix case (rtr.go lines 176-190): length check against
20, then flags (low bit), prefix length, max length, address octets
4-7, ASN octets 8-11, all copied unvalidated into the event.  A payload
shorter than the indexed offsets makes the Go slice operations panic. -/
def iPv4Case (client : Client) (length : Nat) (buffer : List Nat) : StepResult :=
  let cl := checkLength iPv4PREFIX length 20
  if (cl.2).isSome then ⟨cl.1, [], [], client, false⟩
  else
    match buffer with
    | f :: p :: m :: _ :: a0 :: a1 :: a2 :: a3 :: n0 :: n1 :: n2 :: n3 :: _ =>
      ⟨cl.1,
        [⟨"Prefix", some ⟨f &&& 1 == 1, [a0, a1, a2, a3], p, m,
          bigEndianUint32 n0 n1 n2 n3⟩⟩], [], client, false⟩
    | _ => ⟨cl.1, [], [], client, true⟩

/-- The IPv6 Prefix case (rtr.go lines 191-205): length check against
32, address octets 4-19, ASN octets 20-23. -/
def iPv6Case (client : Client) (length : Nat) (buffer : List Nat) : StepResult :=
  let cl := checkLength iPv6PREFIX length 32
  if (cl.2).isSome then ⟨cl.1, [], [], client, false⟩
  else
    match buffer with
    | f :: p :: m :: _ :: a0 :: a1 :: a2 :: a3 :: a4 :: a5 :: a6 :: a7 ::
        a8 :: a9 :: a10 :: a11 :: a12 :: a13 :: a14 :: a15 ::
        n0 :: n1 :: n2 :: n3 :: _ =>
      ⟨cl.1,
        [⟨"Prefix", some ⟨f &&& 1 == 1,
          [a0, a1, a2, a3, a4, a5, a6, a7, a8, a9, a10, a11, a12, a13, a14, a15],
          p, m, bigEndianUint32 n0 n1 n2 n3⟩⟩], [], client, false⟩
    | _ => ⟨cl.1, [], [], client, true⟩

/-- The End of Data case (rtr.go lines 206-218): length check against
12 (for every protocol version), NO session-id test (the source carries
a TODO there), then SerialNo is overwritten with payload octets 0-3 and
the event is delivered with the updated state. -/
def endOfDataCase (client : Client) (length : Nat) (buffer : List Nat) : StepResult :=
  let cl := checkLength eNDOFDATA length 12
  if (cl.2).isSome then ⟨cl.1, [], [], client, false⟩
  else
    match buffer with
    | b0 :: b1 :: b2 :: b3 :: _ =>
      ⟨cl.1, [⟨"(Temporary) End of Data", none⟩], [],
        { client with SerialNo := some (bigEndianUint32 b0 b1 b2 b3) }, false⟩
    | _ => ⟨cl.1, [], [], client, true⟩

/-- The Cache Reset case (rtr.go lines 219-226): length check against
8, event, then a Reset Query is written. -/
def cacheResetCase (protocolVersion : Nat) (client : Client) (length : Nat) :
    StepResult :=
  let cl := checkLength cACHERESET length 8
  if (cl.2).isSome then ⟨cl.1, [], [], client, false⟩
  else ⟨cl.1, [⟨"Cache reset", none⟩], [resetQuery protocolVersion], client, false⟩

/-- The Router Key case (rtr.go lines 227-232): a protocol error under
version 0, otherwise an event and nothing else (no length check). -/
def routerKeyCase (protocolVersion : Nat) (client : Client) : StepResult :=
  if protocolVersion ≤ 0 then
    ⟨[.invalidRouterKey protocolVersion], [], [], client, false⟩
  else ⟨[], [⟨"Router Key (ignored)", none⟩], [], client, false⟩

/-- The Error Report case (rtr.go lines 233-239): payload octets 0-3
give the length of the erroneous PDU, the next four octets after it the
length of the text, then the text itself; the error code is the header
session-id field.  Go slice bounds that exceed the payload panic. -/
def errorReportCase (client : Client) (sessionField : Nat) (buffer : List Nat) :
    StepResult :=
  match buffer with
  | b0 :: b1 :: b2 :: b3 :: _ =>
    let lengthPDU := bigEndianUint32 b0 b1 b2 b3
    if 8 + lengthPDU ≤ buffer.length then
      let mid := buffer.drop (4 + lengthPDU)
      let lengthText := bigEndianUint32 (mid.getD 0 0) (mid.getD 1 0)
        (mid.getD 2 0) (mid.getD 3 0)
      if 8 + lengthPDU + lengthText ≤ buffer.length then
        ⟨[.errorReportReceived sessionField
          ((buffer.drop (8 + lengthPDU)).take lengthText)], [], [], client, false⟩
      else ⟨[], [], [], client, true⟩
    else ⟨[], [], [], client, true⟩
  | _ => ⟨[], [], [], client, true⟩

/-- The switch on the PDU type (rtr.go lines 137-243). -/
def dispatch (protocolVersion : Nat) (client : Client)
    (pduType sessionField length : Nat) (buffer : List Nat) : StepResult :=
  if pduType = sERIALNOTIFY then
    serialNotifyCase protocolVersion client sessionField length buffer
  else if pduType = cACHERESPONSE then
    cacheResponseCase client sessionField length
  else if pduType = iPv4PREFIX then
    iPv4Case client length buffer
  else if pduType = iPv6PREFIX then
    iPv6Case client length buffer
  else if pduType = eNDOFDATA then
    endOfDataCase client length buffer
  else if pduType = cACHERESET then
    cacheResetCase protocolVersion client length
  else if pduType = rOUTERKEY then
    routerKeyCase protocolVersion client
  else if pduType = eRRORREPORT then
    errorReportCase client sessionField buffer
  else ⟨[.unknownPDUType pduType], [], [], client, false⟩

/-- One iteration of readData's loop (rtr.go lines 100-244) after the
header and payload reads succeeded: the version-byte check of line 113,
then the extraction of the PDU type, session field and length from the
header, then the switch.  The frame reader always supplies exactly
eight header octets; any other header shape is out of range. -/
def readDataStep (protocolVersion : Nat) (client : Client)
    (headerbuffer buffer : List Nat) : StepResult :=
  match headerbuffer with
  | [h0, h1, h2, h3, h4, h5, h6, h7] =>
    if h0 ≠ protocolVersion then
      ⟨[.invalidProtocol h0], [], [], client, false⟩
    else
      dispatch protocolVersion client h1 (bigEndianUint16 h2 h3)
        (bigEndianUint32 h4 h5 h6 h7) buffer
  | _ => ⟨[], [], [], client, true⟩

/-- The payload size the frame reader attempts to read for a total
length field (rtr.go lines 119-121): length - hEADERSIZE computed on
Go's uint (64 bits, wrapping below zero).  No bound — in particular,
the constant mAXSIZE — is applied to it anywhere in readData. -/
def payloadReadSize (length : Nat) : Nat :=
  (length + 2 ^ 64 - hEADERSIZE) % 2 ^ 64

/-- The header-stage checks of readData (rtr.go lines 109-133) for a
fully read 8-octet header: the only check is the protocol-version byte;
otherwise the reader moves on to reading payloadReadSize payload
octets.  Returns the framing error raised at this stage, if any, and
the payload size the reader then attempts to read. -/
def headerStage (protocolVersion : Nat) (headerbuffer : List Nat) :
    Option RtrError × Nat :=
  match headerbuffer with
  | [h0, _, _, _, h4, h5, h6, h7] =>
    if h0 ≠ protocolVersion then (some (.invalidProtocol h0), 0)
    else (none, payloadReadSize (bigEndianUint32 h4 h5 h6 h7))
  | _ => (none, 0)

/-- Outcome of one poller iteration. -/
structure LoopOutcome where
  commSent : List RtrError
  returned : Option String
  deriving DecidableEq, Repr

/-- One iteration of loop (rtr.go lines 280-289) after the Sleep: issue
a Serial Query; on failure return the error "Writing Serial Query
failed".  loop has no access to the comm channel, so commSent is empty
on every path; its return value is produced inside the goroutine
started by go client.loop() (rtr.go line 308), which discards it. -/
def loopIteration (protocolVersion : Nat) (client : Client) : LoopOutcome :=
  match (serialQuery protocolVersion client).1 with
  | .failed _ => ⟨[], some "Writing Serial Query failed"⟩
  | .sent _ => ⟨[], none⟩
  | .panicked => ⟨[], none⟩

/-- Dial's wait (rtr.go lines 306-310): status := <-errChannel; only
messages sent on the error channel can become Dial's return value, and
the first one wins. -/
def dialReturn (channelMsgs : List RtrError) : Option RtrError :=
  channelMsgs.head?

/-- The spec's prefix-event invariant (spec.md section 3):
length ≤ max_length ≤ 32 for an IPv4 address, ≤ 128 for an IPv6
address.  Stated over the emitted event, following the spec's words,
to be compared with what the handlers actually emit. -/
def specPrefixInvariant (p : Prefix) : Prop :=
  p.Length ≤ p.MaxLength ∧
  (p.Address.length = 4 → p.MaxLength ≤ 32) ∧
  (p.Address.length = 16 → p.MaxLength ≤ 128)

/-- Octets 2-3 of a Serial Query are PutUint16 of the session id. -/
lemma decodeSessionField_serialQueryBytes (pv sid serial : Nat) :
    decodeSessionField (serialQueryBytes pv sid serial) =
      bigEndianUint16 (sid / 256 % 256) (sid % 256) := rfl

/-- Octets 8-11 of a Serial Query are PutUint32 of the serial. -/
lemma decodeSerial_serialQueryBytes (pv sid serial : Nat) :
    decodeSerial (serialQueryBytes pv sid serial) =
      bigEndianUint32 (serial / 16777216 % 256) (serial / 65536 % 256)
        (serial / 256 % 256) (serial % 256) := rfl

/-- Claim C1: the spec requires that once session_id is set, an inbound
End of Data whose header session-id field differs terminates the
session with an error.  The source's End of Data case tests nothing (it
carries a TODO "test the session ID"): with stored session id 4369, an
End of Data carrying session id 8738 is processed without any error,
the serial is updated and the event is delivered. -/
theorem endOfData_ignores_session_id :
    decodeSessionField [0, 7, 34, 34, 0, 0, 0, 12] = 8738 ∧ (8738 : Nat) ≠ 4369 ∧
    readDataStep 0 ⟨some 4369, some 5⟩ [0, 7, 34, 34, 0, 0, 0, 12] [0, 0, 0, 9] =
      ⟨[], [⟨"(Temporary) End of Data", none⟩], [], ⟨some 4369, some 9⟩, false⟩ := by
  exact ⟨rfl, by decide, rfl⟩

/-- Claim C2: the spec requires that a fixed-length PDU whose length
field mismatches is reported as a fatal framing error AND that the
per-type action is not performed.  In the source, checkLength's inner
err := shadows the named return value, so checkLength always returns
nil and the `if err != nil break` guard never fires: an IPv4 Prefix PDU
with length field 21 gets the length error reported on comm, yet the
prefix event is still emitted to the callback. -/
theorem length_mismatch_still_dispatches :
    readDataStep 0 ⟨none, none⟩ [0, 4, 0, 0, 0, 0, 0, 21]
        [1, 24, 24, 0, 192, 0, 2, 0, 0, 0, 251, 244, 0] =
      ⟨[.lengthMismatch 4 20 21],
        [⟨"Prefix", some ⟨true, [192, 0, 2, 0], 24, 24, 64500⟩⟩], [],
        ⟨none, none⟩, false⟩ := by
  rfl

/-- Claim C3: the spec requires a version-1 End of Data of 24 octets to
be accepted.  The source checks every End of Data against the fixed
length 12, for both protocol versions: under version 1 a 24-octet End
of Data is reported as a length mismatch (and, because of the
checkLength bug of C2, its serial is even adopted anyway). -/
theorem endOfData_v1_length24_rejected :
    readDataStep 1 ⟨some 4369, some 5⟩ [1, 7, 17, 17, 0, 0, 0, 24]
        [0, 0, 0, 9, 0, 0, 0, 0, 0, 0, 0, 0, 0, 0, 0, 0] =
      ⟨[.lengthMismatch 7 12 24], [⟨"(Temporary) End of Data", none⟩], [],
        ⟨some 4369, some 9⟩, false⟩ := by
  rfl

/-- Claim C4: the spec requires the poller's terminating error to be
delivered on the session error channel and returned by Dial.  In the
source, loop returns the error from its own goroutine — whose return
value go client.loop() discards — and sends nothing on the channel:
when the Serial Query fails (here: no serial number known yet), the
iteration produces a returned error but an empty channel transcript,
so Dial, which only sees the channel, observes nothing. -/
theorem loop_error_not_on_channel :
    loopIteration 0 ⟨some 4369, none⟩ =
      ⟨[], some "Writing Serial Query failed"⟩ ∧
    dialReturn (loopIteration 0 ⟨some 4369, none⟩).commSent = none := by
  exact ⟨rfl, rfl⟩

/-- Claim C5: the spec requires a Serial Notify that arrives while
serial_no is unset to complete without crashing, rendering the unknown
serial explicitly and issuing a Reset Query.  The source formats the
event description with *client.SerialNo before testing it for nil: with
SerialNo unset, the dispatcher panics on the nil dereference — after
adopting the session id, before delivering any event or query. -/
theorem serialNotify_unset_serial_panics :
    readDataStep 0 ⟨none, none⟩ [0, 0, 18, 52, 0, 0, 0, 12] [0, 0, 0, 9] =
      ⟨[], [], [], ⟨some 4660, none⟩, true⟩ := by
  rfl

/-- Claim C6: the spec requires total-length fields above mAXSIZE =
65536 to be rejected by the frame reader.  The source declares mAXSIZE
but never consults it: for a header whose length field is 65545, the
header stage raises no error and the reader proceeds to attempt a
payload read of 65537 octets. -/
theorem oversized_length_not_rejected :
    mAXSIZE < bigEndianUint32 0 1 0 9 ∧
    headerStage 0 [0, 4, 0, 0, 0, 1, 0, 9] = (none, 65537) ∧
    65537 = bigEndianUint32 0 1 0 9 - hEADERSIZE := by
  decide

/-- Counterexample to claim C7: an IPv4 Prefix PDU whose payload
carries length 99 and max-length 3 is emitted to the callback verbatim,
violating length ≤ max_length ≤ 32. -/
theorem prefix_invariant_violated :
    (readDataStep 0 ⟨none, none⟩ [0, 4, 0, 0, 0, 0, 0, 20]
        [1, 99, 3, 0, 192, 0, 2, 0, 0, 0, 251, 244]).events =
      [⟨"Prefix", some ⟨true, [192, 0, 2, 0], 99, 3, 64500⟩⟩] ∧
    ¬ specPrefixInvariant ⟨true, [192, 0, 2, 0], 99, 3, 64500⟩ := by
  constructor
  · rfl
  · intro h
    exact absurd h.1 (by decide)

/-- Claim C7 as amended: for EVERY inbound prefix PDU, the IPv4 and
IPv6 Prefix handlers copy flags, length, max-length, address and ASN
verbatim from the payload into the emitted event, performing no
validation; and the emitted event satisfies the invariant
length ≤ max_length ≤ 32 (respectively 128) exactly when — if and only
if — the payload bytes themselves do. -/
theorem prefix_event_copies_bytes (pv f4 p4 m4 z4 a0 a1 a2 a3 n0 n1 n2 n3
    f6 p6 m6 z6 c0 c1 c2 c3 c4 c5 c6 c7 c8 c9 c10 c11 c12 c13 c14 c15
    d0 d1 d2 d3 : Nat) (cl : Client) :
    (readDataStep pv cl [pv, 4, 0, 0, 0, 0, 0, 20]
        [f4, p4, m4, z4, a0, a1, a2, a3, n0, n1, n2, n3] =
      ⟨[], [⟨"Prefix", some ⟨f4 &&& 1 == 1, [a0, a1, a2, a3], p4, m4,
        bigEndianUint32 n0 n1 n2 n3⟩⟩], [], cl, false⟩
      ∧ (specPrefixInvariant ⟨f4 &&& 1 == 1, [a0, a1, a2, a3], p4, m4,
          bigEndianUint32 n0 n1 n2 n3⟩ ↔ (p4 ≤ m4 ∧ m4 ≤ 32)))
    ∧ (readDataStep pv cl [pv, 6, 0, 0, 0, 0, 0, 32]
        [f6, p6, m6, z6, c0, c1, c2, c3, c4, c5, c6, c7, c8, c9, c10, c11,
          c12, c13, c14, c15, d0, d1, d2, d3] =
      ⟨[], [⟨"Prefix", some ⟨f6 &&& 1 == 1,
        [c0, c1, c2, c3, c4, c5, c6, c7, c8, c9, c10, c11, c12, c13, c14, c15],
        p6, m6, bigEndianUint32 d0 d1 d2 d3⟩⟩], [], cl, false⟩
      ∧ (specPrefixInvariant ⟨f6 &&& 1 == 1,
          [c0, c1, c2, c3, c4, c5, c6, c7, c8, c9, c10, c11, c12, c13, c14, c15],
          p6, m6, bigEndianUint32 d0 d1 d2 d3⟩ ↔ (p6 ≤ m6 ∧ m6 ≤ 128))) := by
  have e20 : bigEndianUint32 0 0 0 20 = 20 := rfl
  have e32 : bigEndianUint32 0 0 0 32 = 32 := rfl
  refine ⟨⟨?_, ?_⟩, ⟨?_, ?_⟩⟩
  · simp [readDataStep, dispatch, iPv4Case, checkLength, e20,
      sERIALNOTIFY, cACHERESPONSE, iPv4PREFIX]
  · simp [specPrefixInvariant]
  · simp [readDataStep, dispatch, iPv6Case, checkLength, e32,
      sERIALNOTIFY, cACHERESPONSE, iPv4PREFIX, iPv6PREFIX]
  · simp [specPrefixInvariant]

/-- Claim C8: an inbound Serial Notify with matching session id, a set
stored serial, and a differing advertised serial causes exactly one
outbound PDU: a 12-octet Serial Query carrying the stored serial (not
the advertised one) and the stored session id. -/
theorem serialNotify_sends_stored_serial (pv s2 s3 cur b0 b1 b2 b3 : Nat)
    (hs2 : s2 < 256) (hs3 : s3 < 256) (hcur : cur < 4294967296)
    (hne : bigEndianUint32 b0 b1 b2 b3 ≠ cur) :
    (readDataStep pv ⟨some (bigEndianUint16 s2 s3), some cur⟩
        [pv, 0, s2, s3, 0, 0, 0, 12] [b0, b1, b2, b3]).sent =
      [serialQueryBytes pv (bigEndianUint16 s2 s3) cur] ∧
    (serialQueryBytes pv (bigEndianUint16 s2 s3) cur).length = 12 ∧
    decodePduType (serialQueryBytes pv (bigEndianUint16 s2 s3) cur) =
      sERIALQUERY ∧
    decodeLength (serialQueryBytes pv (bigEndianUint16 s2 s3) cur) = 12 ∧
    decodeSessionField (serialQueryBytes pv (bigEndianUint16 s2 s3) cur) =
      bigEndianUint16 s2 s3 ∧
    decodeSerial (serialQueryBytes pv (bigEndianUint16 s2 s3) cur) = cur := by
  have e12 : bigEndianUint32 0 0 0 12 = 12 := rfl
  refine ⟨?_, rfl, rfl, rfl, ?_, ?_⟩
  · simp [readDataStep, dispatch, serialNotifyCase, serialNotifyTail,
      checkLength, serialQuery, e12, hne, sERIALNOTIFY]
  · rw [decodeSessionField_serialQueryBytes]
    simp only [bigEndianUint16]
    omega
  · rw [decodeSerial_serialQueryBytes]
    simp only [bigEndianUint32]
    omega

/-- Witness for C8 at the spec's fixture: stored session id 0x1234,
stored serial 7, advertised serial 9. -/
theorem serialNotify_sends_stored_serial_witness :
    (readDataStep 0 ⟨some (bigEndianUint16 18 52), some 7⟩
        [0, 0, 18, 52, 0, 0, 0, 12] [0, 0, 0, 9]).sent =
      [serialQueryBytes 0 (bigEndianUint16 18 52) 7] ∧
    (serialQueryBytes 0 (bigEndianUint16 18 52) 7).length = 12 ∧
    decodePduType (serialQueryBytes 0 (bigEndianUint16 18 52) 7) =
      sERIALQUERY ∧
    decodeLength (serialQueryBytes 0 (bigEndianUint16 18 52) 7) = 12 ∧
    decodeSessionField (serialQueryBytes 0 (bigEndianUint16 18 52) 7) =
      bigEndianUint16 18 52 ∧
    decodeSerial (serialQueryBytes 0 (bigEndianUint16 18 52) 7) = 7 :=
  serialNotify_sends_stored_serial 0 18 52 7 0 0 0 9
    (by decide) (by decide) (by decide) (by decide)

/-- Claim C9: decoding the octets of an encoded Reset Query yields
(version = configured, type = 2, length = 8); decoding the octets of a
Serial Query encoded from a client holding session id S and serial N
yields (type = 1, session id = S, length = 12, serial = N). -/
theorem query_encode_decode_roundtrip (pv S N : Nat)
    (hS : S < 65536) (hN : N < 4294967296) :
    decodeVersion (resetQuery pv) = pv ∧
    decodePduType (resetQuery pv) = rESETQUERY ∧
    decodeLength (resetQuery pv) = 8 ∧
    serialQuery pv ⟨some S, some N⟩ =
      (.sent (serialQueryBytes pv S N), ⟨some S, some N⟩) ∧
    decodePduType (serialQueryBytes pv S N) = sERIALQUERY ∧
    decodeSessionField (serialQueryBytes pv S N) = S ∧
    decodeLength (serialQueryBytes pv S N) = 12 ∧
    decodeSerial (serialQueryBytes pv S N) = N := by
  refine ⟨rfl, rfl, rfl, rfl, rfl, ?_, rfl, ?_⟩
  · rw [decodeSessionField_serialQueryBytes]
    simp only [bigEndianUint16]
    omega
  · rw [decodeSerial_serialQueryBytes]
    simp only [bigEndianUint32]
    omega

/-- Witness for C9 at session id 0x1234 and serial 7. -/
theorem query_encode_decode_roundtrip_witness :
    decodeVersion (resetQuery 0) = 0 ∧
    decodePduType (resetQuery 0) = rESETQUERY ∧
    decodeLength (resetQuery 0) = 8 ∧
    serialQuery 0 ⟨some 4660, some 7⟩ =
      (.sent (serialQueryBytes 0 4660 7), ⟨some 4660, some 7⟩) ∧
    decodePduType (serialQueryBytes 0 4660 7) = sERIALQUERY ∧
    decodeSessionField (serialQueryBytes 0 4660 7) = 4660 ∧
    decodeLength (serialQueryBytes 0 4660 7) = 12 ∧
    decodeSerial (serialQueryBytes 0 4660 7) = 7 :=
  query_encode_decode_roundtrip 0 4660 7 (by decide) (by decide)

/-- Claim C10: serialQuery on a client whose SerialNo is unset returns
the error "serialQuery called but no serial number known", writes
nothing to the socket (no octets produced) and leaves the session state
unchanged. -/
theorem serialQuery_unset_serial_fails (pv : Nat) (client : Client)
    (h : client.SerialNo = none) :
    serialQuery pv client =
      (.failed "serialQuery called but no serial number known", client) := by
  obtain ⟨sid, ser⟩ := client
  cases ser with
  | none => rfl
  | some s => simp at h

/-- Witness for C10 on the freshly initialized client. -/
theorem serialQuery_unset_serial_fails_witness :
    serialQuery 0 ⟨none, none⟩ =
      (.failed "serialQuery called but no serial number known", ⟨none, none⟩) :=
  serialQuery_unset_serial_fails 0 ⟨none, none⟩ rfl

end GoRTR
